import Mathlib

/-!
Verification of the gocovercheck tool (two revisions of `gocovercheck.go`).

Shallow embedding conventions:
* Go `float64` arithmetic is modelled by exact rationals `ℚ`.  The constant
  `.001` becomes `1/1000` and `covered/total*100` becomes exact rational
  division; the claims under verification are stated in exact arithmetic.
* `cover.ParseProfiles` (external library `golang.org/x/tools/cover`) is
  modelled by its result: an `Except String (List Profile)` input, where
  `.error cause` covers both "file cannot be opened" and "contents do not
  conform to the profile format".  The profile format only admits decimal
  digit runs for `NumStmt` and `Count`, so both are modelled as `Nat`.
* File reading in `guessPackageName` is modelled by the list of lines the
  `bufio.Scanner` would produce, `Option (List String)` (`none` = the file
  cannot be opened).
* Process execution is modelled by the injected runner's result,
  `Option String` (`some msg` = the subprocess failed with error `msg`).
-/

namespace Gocovercheck

/-- One block record of a coverage profile: `cover.ProfileBlock` restricted to
the two fields the tool reads, `NumStmt` and `Count`.  The profile text format
only produces non-negative values for both. -/
structure ProfileBlock where
  numStmt : Nat
  count : Nat
deriving DecidableEq

/-- One per-file group of blocks: `cover.Profile` restricted to the fields the
tool reads. -/
structure Profile where
  fileName : String
  blocks : List ProfileBlock
deriving DecidableEq

/-- The inner loop body of `calculateCoverage`: the accumulator is the pair
`(total, covered)`; `total += block.NumStmt`, and `covered += block.NumStmt`
when `block.Count > 0`. -/
def accumBlock (acc : Nat × Nat) (b : ProfileBlock) : Nat × Nat :=
  (acc.1 + b.numStmt, if 0 < b.count then acc.2 + b.numStmt else acc.2)

/-- The outer loop body of `calculateCoverage`: fold the inner loop over one
profile's blocks. -/
def accumProfile (acc : Nat × Nat) (p : Profile) : Nat × Nat :=
  p.blocks.foldl accumBlock acc

/-- The two running sums of `calculateCoverage` after both loops, starting
from `total = 0`, `covered = 0`. -/
def coverageTotals (profiles : List Profile) : Nat × Nat :=
  profiles.foldl accumProfile (0, 0)

/-- The percentage computed by `calculateCoverage` on a successfully parsed
profile: `0.0` when the total is `0`, otherwise `covered/total*100` (exact
rational model of the float64 computation). -/
def coverageOf (profiles : List Profile) : ℚ :=
  let t := coverageTotals profiles
  if t.1 = 0 then 0 else (t.2 : ℚ) / (t.1 : ℚ) * 100

/-- `calculateCoverage` (identical in both revisions), over the modelled parse
result.  On a parse failure the Go code returns
`wraperr(err, "cannot parse coverage profile file %s", coverprofile)`, whose
`Error()` string is `msg ++ ": " ++ err`. -/
def calculateCoverage (coverprofile : String)
    (parsed : Except String (List Profile)) : Except String ℚ :=
  match parsed with
  | .error cause =>
      .error ("cannot parse coverage profile file " ++ coverprofile ++ ": " ++ cause)
  | .ok profiles => .ok (coverageOf profiles)

/-- Sum of `NumStmt` over all blocks of all profiles (the spec's "total
statement count"). -/
def totalStatements (profiles : List Profile) : Nat :=
  ((profiles.flatMap Profile.blocks).map ProfileBlock.numStmt).sum

/-- Sum of `NumStmt` over the blocks whose `Count` is positive (the spec's
"covered statement count"). -/
def coveredStatements (profiles : List Profile) : Nat :=
  (((profiles.flatMap Profile.blocks).filter fun b => decide (0 < b.count)).map
    ProfileBlock.numStmt).sum

/-- The threshold condition of `runCmd` (both revisions): the run fails the
coverage check exactly when `coverage + .001 < requiredCoverage`.  `true`
means the check fails (an error is returned). -/
def thresholdFails (coverage required : ℚ) : Bool :=
  decide (coverage + 1 / 1000 < required)

/-- The pass decision: no error is returned from the threshold comparison. -/
def thresholdPasses (coverage required : ℚ) : Bool :=
  !thresholdFails coverage required

/-- `defaultPackageName`, the label returned by `guessPackageName` on any
failure (both revisions). -/
def defaultPackageName : String := ""

/-- Character-level worker for `splitChar`: `acc` holds the current field's
characters in reverse. -/
def splitCharAux (sep : Char) : List Char → List Char → List String
  | [], acc => [String.mk acc.reverse]
  | c :: rest, acc =>
    if c = sep then String.mk acc.reverse :: splitCharAux sep rest []
    else splitCharAux sep rest (c :: acc)

/-- Go's `strings.Split(s, sep)` for a one-character separator (the only way
this program uses it): all the substrings between occurrences of `sep`,
yielding `n+1` fields for `n` separators, and `[""]` on the empty string. -/
def splitChar (sep : Char) (s : String) : List String :=
  splitCharAux sep s.data []

/-- One step of the element scan inside Go's `path.Clean` (external standard
library, Unix rules), processing path elements against a stack held most
recent first: empty and `.` elements are elided; `..` pops a real element,
is dropped at the root when the path is rooted, and accumulates otherwise;
any other element is pushed. -/
def cleanStep (rooted : Bool) (stack : List String) (elem : String) : List String :=
  if elem = "" ∨ elem = "." then stack
  else if elem = ".." then
    match stack with
    | [] => if rooted then [] else [".."]
    | top :: rest => if top = ".." then ".." :: stack else rest
  else elem :: stack

/-- Go's `path.Clean` for Unix paths (external standard library), modelled by
scanning the slash-separated elements with `cleanStep`: the result is the
remaining elements joined by `/`, rooted with a leading `/` when the input
was, and `.` (or `/`) when no element remains. -/
def goClean (path : String) : String :=
  if path = "" then "."
  else
    let rooted := path.data.headI == '/'
    let elems := (splitChar '/' path).foldl (cleanStep rooted) []
    let body := String.intercalate "/" elems.reverse
    if rooted then (if body = "" then "/" else "/" ++ body)
    else (if body = "" then "." else body)

/-- Go's `path/filepath.Dir` for Unix paths (external standard library): drop
the trailing characters after the final `/` (all of them when there is no
`/`), then `Clean` the remainder. -/
def filepathDir (path : String) : String :=
  let chars := path.data
  let keep := chars.length - (chars.reverse.takeWhile fun c => c ≠ '/').length
  goClean (String.mk (chars.take keep))

/-- `guessPackageName` (identical in both revisions) over the modelled file:
`none` models a file that cannot be opened; `some lines` gives the lines the
`bufio.Scanner` yields.  Two successful `Scan` calls require at least two
lines; the second line is split on `:`; fewer than two parts yields
`defaultPackageName`; otherwise the result is `filepath.Dir` of the first
part.  The function is total: no failure aborts the caller. -/
def guessPackageName (fileLines : Option (List String)) : String :=
  match fileLines with
  | none => defaultPackageName
  | some lines =>
    match lines with
    | _first :: nextLine :: _rest =>
      let lineParts := splitChar ':' nextLine
      if lineParts.length < 2 then defaultPackageName
      else filepathDir lineParts.headI
    | _ => defaultPackageName

/-- The possible writers produced by `forFile`, abstracting over the type `W`
of the passed-through `dash` writer: the `dash` value itself, the shared
discarding writer `discardWriteCloserStruct`, or a file created at a path
(`os.Create`, with the actual file-system effect abstracted away). -/
inductive FileWriter (W : Type) where
  | passthrough (w : W)
  | discardSink
  | created (path : String)
deriving DecidableEq

/-- `forFile` (identical in both revisions): `"-"` returns `dash` itself,
`""` returns the discarding writer, anything else creates the named file. -/
def forFile {W : Type} (filename : String) (dash : W) : FileWriter W :=
  if filename = "-" then .passthrough dash
  else if filename = "" then .discardSink
  else .created filename

/-- The `Write` method of `ioutil.Discard` backing `discardWriteCloserStruct`:
it consumes the buffer, reports the full length written, and never returns an
error (bytes modelled as `Nat`). -/
def discardWrite (p : List Nat) : Nat × Option String :=
  (p.length, none)

/-- The `p` low-order decimal digits of `n`, zero-padded, most significant
first. -/
def natFixedDigits (n : Nat) : Nat → List Char
  | 0 => []
  | p + 1 => natFixedDigits (n / 10) p ++ [Char.ofNat (48 + n % 10)]

/-- The decimal digits of `n`, most significant first. -/
def natDecimal (n : Nat) : List Char :=
  if h : n < 10 then [Char.ofNat (48 + n)]
  else natDecimal (n / 10) ++ [Char.ofNat (48 + n % 10)]
decreasing_by exact Nat.div_lt_self (by omega) (by omega)

/-- Fixed-point decimal rendering of a rational with `p` digits after the
point, modelling Go's `fmt` verb `%.pf` on the float values (`%f` is `%.6f`);
rounding of the final digit is to nearest, half away from zero — the claims
under verification depend only on the digit counts, not on tie direction. -/
def formatFixed (q : ℚ) (p : Nat) : String :=
  let sign : List Char := if q < 0 then ['-'] else []
  let scaled : Nat := (|q| * (10 : ℚ) ^ p + 1 / 2).floor.toNat
  String.mk (sign ++ natDecimal (scaled / 10 ^ p) ++
    (if p = 0 then [] else ['.'] ++ natFixedDigits (scaled % 10 ^ p) p))

/-- Number of characters after the final `.` of a string (the whole string
when it has no `.`). -/
def decimalPlaces (s : String) : Nat :=
  (s.data.reverse.takeWhile fun c => c != '.').length

/-- The error message built by `runCmd` of the first revision when the
coverage check fails: `Code coverage %.4f less than required %.4f`. -/
def thresholdMessage1 (coverage required : ℚ) : String :=
  "Code coverage " ++ formatFixed coverage 4 ++ " less than required " ++
    formatFixed required 4

/-- The error message built by `runCmd` of the second revision when the
coverage check fails:
`%s::warning:Code coverage %.3f less than required %f`. -/
def thresholdMessage2 (label : String) (coverage required : ℚ) : String :=
  label ++ "::warning:Code coverage " ++ formatFixed coverage 3 ++
    " less than required " ++ formatFixed required 6

/-- `runCmd` of the first revision: run the injected command, refresh
`bestGuessPackageName` from the profile when the guess is not the default,
then short-circuit on a run error (wrapped as
`test command did not run correctly`), otherwise compute the coverage (parse
errors wrapped as `cannot load coverage profile file`) and apply the
threshold check.  The result pairs the updated `bestGuessPackageName` with
the returned error (`none` = success). -/
def runCmd1 (runErr : Option String) (profileLines : Option (List String))
    (parsed : Except String (List Profile)) (coverprofile : String)
    (requiredCoverage : ℚ) (bestGuess0 : String) : String × Option String :=
  let guessed := guessPackageName profileLines
  let bestGuess := if guessed ≠ defaultPackageName then guessed else bestGuess0
  match runErr with
  | some e => (bestGuess, some ("test command did not run correctly: " ++ e))
  | none =>
    match calculateCoverage coverprofile parsed with
    | .error ce => (bestGuess, some ("cannot load coverage profile file: " ++ ce))
    | .ok coverage =>
      if coverage + 1 / 1000 < requiredCoverage then
        (bestGuess, some (thresholdMessage1 coverage requiredCoverage))
      else (bestGuess, none)

/-- The single line `main` of the first revision prints when `runCmd`
returns an error: `%s::warning:%s` with `bestGuessPackageName` and the
error's message. -/
def reportLine1 (bestGuess errMsg : String) : String :=
  bestGuess ++ "::warning:" ++ errMsg

/-- `runCmd` of the second revision: short-circuit on a run error (wrapped
as `cannot run command`), otherwise compute the coverage (parse errors
wrapped as `cannot load coverage profile file`) and apply the threshold
check, embedding the guessed package name in the failure message. -/
def runCmd2 (runErr : Option String) (profileLines : Option (List String))
    (parsed : Except String (List Profile)) (coverprofile : String)
    (requiredCoverage : ℚ) : Option String :=
  match runErr with
  | some e => some ("cannot run command: " ++ e)
  | none =>
    match calculateCoverage coverprofile parsed with
    | .error ce => some ("cannot load coverage profile file: " ++ ce)
    | .ok coverage =>
      if coverage + 1 / 1000 < requiredCoverage then
        some (thresholdMessage2 (guessPackageName profileLines) coverage
          requiredCoverage)
      else none

/-- The `(NumStmt, Count)` pairs of all blocks of all files, in order: the
data `calculateCoverage` actually consumes. -/
def flattenPairs (profiles : List Profile) : List (Nat × Nat) :=
  (profiles.flatMap Profile.blocks).map fun b => (b.numStmt, b.count)

theorem accumBlock_spec (acc : Nat × Nat) (b : ProfileBlock) :
    accumBlock acc b =
      (acc.1 + b.numStmt, acc.2 + if 0 < b.count then b.numStmt else 0) := by
  simp only [accumBlock]
  split <;> simp

theorem foldl_accumBlock (bs : List ProfileBlock) (acc : Nat × Nat) :
    bs.foldl accumBlock acc =
      (acc.1 + (bs.map ProfileBlock.numStmt).sum,
       acc.2 + ((bs.filter fun b => decide (0 < b.count)).map
         ProfileBlock.numStmt).sum) := by
  induction bs generalizing acc with
  | nil => simp
  | cons b bs ih =>
      rw [List.foldl_cons, ih, accumBlock_spec]
      by_cases h : 0 < b.count <;>
        simp [List.filter_cons, h, Prod.ext_iff] <;> omega

theorem coverageTotals_eq (profiles : List Profile) :
    coverageTotals profiles = (totalStatements profiles, coveredStatements profiles) := by
  suffices h : ∀ acc, profiles.foldl accumProfile acc =
      (acc.1 + totalStatements profiles, acc.2 + coveredStatements profiles) by
    simpa using h (0, 0)
  induction profiles with
  | nil => intro acc; simp [totalStatements, coveredStatements]
  | cons p ps ih =>
      intro acc
      rw [List.foldl_cons]
      show List.foldl accumProfile (accumProfile acc p) ps = _
      rw [ih (accumProfile acc p)]
      simp only [accumProfile, foldl_accumBlock, totalStatements, coveredStatements,
        List.flatMap_cons, List.map_append, List.sum_append, List.filter_append,
        Prod.mk.injEq]
      omega

theorem coverageOf_eq (profiles : List Profile) :
    coverageOf profiles =
      if totalStatements profiles = 0 then 0
      else (coveredStatements profiles : ℚ) / (totalStatements profiles : ℚ) * 100 := by
  simp [coverageOf, coverageTotals_eq]

theorem sum_map_filter_le (bs : List ProfileBlock) :
    ((bs.filter fun b => decide (0 < b.count)).map ProfileBlock.numStmt).sum ≤
      (bs.map ProfileBlock.numStmt).sum := by
  induction bs with
  | nil => simp
  | cons b bs ih =>
      rw [List.filter_cons]
      by_cases h : 0 < b.count <;> simp [h] <;> omega

/-- Covered statements never exceed total statements. -/
theorem coveredStatements_le_totalStatements (profiles : List Profile) :
    coveredStatements profiles ≤ totalStatements profiles :=
  sum_map_filter_le (profiles.flatMap Profile.blocks)

theorem natFixedDigits_length (p : Nat) : ∀ n, (natFixedDigits n p).length = p := by
  induction p with
  | zero => intro n; rfl
  | succ p ih => intro n; simp [natFixedDigits, ih]

theorem dot_ne_digitChar : ∀ k, k < 10 → Char.ofNat (48 + k) ≠ '.' := by decide

theorem natFixedDigits_no_dot (p : Nat) : ∀ n, '.' ∉ natFixedDigits n p := by
  induction p with
  | zero => intro n; simp [natFixedDigits]
  | succ p ih =>
      intro n h
      rcases List.mem_append.mp h with h | h
      · exact ih _ h
      · rw [List.mem_singleton] at h
        exact dot_ne_digitChar (n % 10) (Nat.mod_lt _ (by omega)) h.symm

theorem takeWhile_append_dot (l1 l2 : List Char) (h : ∀ c ∈ l1, c ≠ '.') :
    ((l1 ++ '.' :: l2).takeWhile fun c => c != '.') = l1 := by
  induction l1 with
  | nil => simp
  | cons a l ih =>
      have ha : (a != '.') = true := by
        simpa using h a (List.mem_cons_self a l)
      simp only [List.cons_append, List.takeWhile_cons, ha, if_true]
      rw [ih fun c hc => h c (List.mem_cons_of_mem a hc)]

theorem decimalPlaces_mk (l1 l2 : List Char) (h : ∀ c ∈ l2, c ≠ '.') :
    decimalPlaces (String.mk (l1 ++ '.' :: l2)) = l2.length := by
  show ((l1 ++ '.' :: l2).reverse.takeWhile fun c => c != '.').length = l2.length
  rw [show (l1 ++ '.' :: l2).reverse = l2.reverse ++ '.' :: l1.reverse by simp]
  rw [takeWhile_append_dot _ _ fun c hc => h c (List.mem_reverse.mp hc)]
  simp

/-- A fixed-point rendering with positive precision has exactly that many
characters after its decimal point. -/
theorem formatFixed_decimalPlaces (q : ℚ) (p : Nat) (hp : 0 < p) :
    decimalPlaces (formatFixed q p) = p := by
  have hne : ¬(p = 0) := by omega
  have h1 : formatFixed q p =
      String.mk (((if q < 0 then ['-'] else []) ++
        natDecimal ((|q| * (10 : ℚ) ^ p + 1 / 2).floor.toNat / 10 ^ p)) ++
        '.' :: natFixedDigits ((|q| * (10 : ℚ) ^ p + 1 / 2).floor.toNat % 10 ^ p) p) := by
    unfold formatFixed
    simp [hne]
  rw [h1, decimalPlaces_mk]
  · exact natFixedDigits_length p _
  · intro c hc heq
    exact natFixedDigits_no_dot p _ (heq ▸ hc)

theorem totalStatements_flattenPairs (ps : List Profile) :
    totalStatements ps = ((flattenPairs ps).map Prod.fst).sum := by
  unfold totalStatements flattenPairs
  rw [List.map_map]
  rfl

theorem sum_map_ite_eq_filter (bs : List ProfileBlock) :
    ((bs.filter fun b => decide (0 < b.count)).map ProfileBlock.numStmt).sum =
      (bs.map fun b => if 0 < b.count then b.numStmt else 0).sum := by
  induction bs with
  | nil => rfl
  | cons b bs ih =>
      rw [List.filter_cons]
      by_cases h : 0 < b.count <;> simp [h, ih]

theorem coveredStatements_flattenPairs (ps : List Profile) :
    coveredStatements ps =
      ((flattenPairs ps).map fun q => if 0 < q.2 then q.1 else 0).sum := by
  unfold coveredStatements flattenPairs
  rw [sum_map_ite_eq_filter, List.map_map]
  rfl

theorem sum_fst_filter_ne_zero (l : List (Nat × Nat)) :
    ((l.filter fun q => decide (q.1 ≠ 0)).map Prod.fst).sum = (l.map Prod.fst).sum := by
  induction l with
  | nil => rfl
  | cons a l ih =>
      rw [List.filter_cons]
      by_cases h : a.1 = 0
      · rw [if_neg (by simp [h]), ih, List.map_cons, List.sum_cons, h, Nat.zero_add]
      · rw [if_pos (by simp [h]), List.map_cons, List.map_cons, List.sum_cons,
          List.sum_cons, ih]

theorem sum_ite_filter_ne_zero (l : List (Nat × Nat)) :
    ((l.filter fun q => decide (q.1 ≠ 0)).map fun q => if 0 < q.2 then q.1 else 0).sum =
      (l.map fun q => if 0 < q.2 then q.1 else 0).sum := by
  induction l with
  | nil => rfl
  | cons a l ih =>
      rw [List.filter_cons]
      by_cases h : a.1 = 0
      · rw [if_neg (by simp [h]), ih, List.map_cons, List.sum_cons]
        have hz : (if 0 < a.2 then a.1 else 0) = 0 := by
          split <;> simp [h]
        rw [hz, Nat.zero_add]
      · rw [if_pos (by simp [h]), List.map_cons, List.map_cons, List.sum_cons,
          List.sum_cons, ih]

/-- Claim C1 — on every successfully parsed profile, `calculateCoverage`
returns (sum of `NumStmt` over blocks with `Count > 0`) divided by (sum of
`NumStmt` over all blocks) times `100`, and exactly `0` (no error, and no NaN
in the exact-rational model) when the total statement count is `0`. -/
theorem claim1_calculateCoverage_formula (cp : String) (ps : List Profile) :
    calculateCoverage cp (.ok ps) =
      .ok (if totalStatements ps = 0 then 0
        else (coveredStatements ps : ℚ) / (totalStatements ps : ℚ) * 100) ∧
    (totalStatements ps = 0 → calculateCoverage cp (.ok ps) = .ok 0) := by
  constructor
  · show Except.ok (coverageOf ps) = _
    rw [coverageOf_eq]
  · intro h
    show Except.ok (coverageOf ps) = _
    rw [coverageOf_eq, if_pos h]

theorem claim1_calculateCoverage_formula_witness :
    totalStatements [Profile.mk "a.go" [ProfileBlock.mk 0 1]] = 0 ∧
    calculateCoverage "cover.out" (.ok [Profile.mk "a.go" [ProfileBlock.mk 0 1]]) =
      .ok 0 :=
  ⟨by decide, (claim1_calculateCoverage_formula "cover.out" _).2 (by decide)⟩

/-- Claim C2 — the threshold decision passes (returns no error) if and only
if `coverage + 0.001 ≥ required`; the same holds for the full `runCmd` of the
second revision with a successful run and parse; boundary cases:
`79.999` against `80` passes and `79.998` against `80` fails. -/
theorem claim2_threshold_pass_iff :
    (∀ coverage required : ℚ,
      thresholdPasses coverage required = true ↔ required ≤ coverage + 1 / 1000) ∧
    (∀ (pl : Option (List String)) (cp : String) (required : ℚ) (ps : List Profile),
      runCmd2 none pl (.ok ps) cp required = none ↔
        required ≤ coverageOf ps + 1 / 1000) ∧
    thresholdPasses (79.999 : ℚ) 80 = true ∧
    thresholdPasses (79.998 : ℚ) 80 = false := by
  refine ⟨?_, ?_, ?_, ?_⟩
  · intro c r
    simp [thresholdPasses, thresholdFails, not_lt]
  · intro pl cp r ps
    show (if coverageOf ps + 1 / 1000 < r then
        some (thresholdMessage2 (guessPackageName pl) (coverageOf ps) r)
      else none) = none ↔ _
    split
    · rename_i h
      constructor
      · intro h2
        exact (Option.some_ne_none _ h2).elim
      · intro hle
        exact absurd h (not_lt.mpr hle)
    · rename_i h
      rw [not_lt] at h
      exact iff_of_true rfl h
  · norm_num [thresholdPasses, thresholdFails]
  · norm_num [thresholdPasses, thresholdFails]

/-- Claim C3 is false as stated: a parseable profile whose single block has
`Count = 1 > 0` but `NumStmt = 0` has every block covered, yet the computed
coverage is `0`, not `100` (the total statement count is `0`). -/
theorem claim3_counterexample :
    (([ProfileBlock.mk 0 1] : List ProfileBlock).all fun b => decide (0 < b.count)) =
      true ∧
    coverageOf [Profile.mk "a.go" [ProfileBlock.mk 0 1]] = 0 ∧
    coverageOf [Profile.mk "a.go" [ProfileBlock.mk 0 1]] ≠ 100 := by
  refine ⟨by decide, by decide, ?_⟩
  have h0 : coverageOf [Profile.mk "a.go" [ProfileBlock.mk 0 1]] = 0 := by decide
  rw [h0]
  norm_num

/-- Claim C3, amended — on every profile in which every block has execution
count greater than `0` and the total statement count is nonzero, the computed
coverage equals `100`. -/
theorem claim3_all_covered (ps : List Profile)
    (hcov : ∀ b ∈ ps.flatMap Profile.blocks, 0 < b.count)
    (htot : totalStatements ps ≠ 0) :
    coverageOf ps = 100 := by
  have hfil : (ps.flatMap Profile.blocks).filter (fun b => decide (0 < b.count)) =
      ps.flatMap Profile.blocks :=
    List.filter_eq_self.mpr fun b hb => by simpa using hcov b hb
  have hce : coveredStatements ps = totalStatements ps := by
    unfold coveredStatements totalStatements
    rw [hfil]
  rw [coverageOf_eq, if_neg htot, hce]
  have hne : (totalStatements ps : ℚ) ≠ 0 := Nat.cast_ne_zero.mpr htot
  rw [div_self hne, one_mul]

theorem claim3_all_covered_witness :
    totalStatements [Profile.mk "a.go" [ProfileBlock.mk 2 3]] ≠ 0 ∧
    coverageOf [Profile.mk "a.go" [ProfileBlock.mk 2 3]] = 100 :=
  ⟨by decide, claim3_all_covered _ (by decide) (by decide)⟩

/-- Claim C4 — on every successfully parsed profile `calculateCoverage`
returns no error, and the returned value is non-negative and at most `100`. -/
theorem claim4_coverage_bounds (cp : String) (ps : List Profile) :
    calculateCoverage cp (.ok ps) = .ok (coverageOf ps) ∧
    0 ≤ coverageOf ps ∧ coverageOf ps ≤ 100 := by
  refine ⟨rfl, ?_, ?_⟩
  · rw [coverageOf_eq]
    split
    · exact le_refl 0
    · positivity
  · rw [coverageOf_eq]
    split
    · norm_num
    · rename_i h
      have htpos : (0 : ℚ) < (totalStatements ps : ℚ) := by
        exact_mod_cast Nat.pos_of_ne_zero h
      have hle : (coveredStatements ps : ℚ) ≤ (totalStatements ps : ℚ) := by
        exact_mod_cast coveredStatements_le_totalStatements ps
      have h1 : (coveredStatements ps : ℚ) / (totalStatements ps : ℚ) ≤ 1 :=
        (div_le_one htpos).mpr hle
      calc (coveredStatements ps : ℚ) / (totalStatements ps : ℚ) * 100
          ≤ 1 * 100 := mul_le_mul_of_nonneg_right h1 (by norm_num)
        _ = 100 := one_mul 100

/-- Claim C5 — when the injected subprocess run fails, `runCmd` of either
revision returns that error wrapped with its contextual message, and the
result does not depend on the parse outcome or the required threshold: the
coverage profile is never parsed or compared against the threshold. -/
theorem claim5_run_error_short_circuits (e : String) (pl : Option (List String))
    (parsed parsed2 : Except String (List Profile)) (cp cp2 : String)
    (r r2 : ℚ) (bg : String) :
    (runCmd1 (some e) pl parsed cp r bg).2 =
      some ("test command did not run correctly: " ++ e) ∧
    runCmd2 (some e) pl parsed cp r = some ("cannot run command: " ++ e) ∧
    runCmd1 (some e) pl parsed cp r bg = runCmd1 (some e) pl parsed2 cp2 r2 bg ∧
    runCmd2 (some e) pl parsed cp r = runCmd2 (some e) pl parsed2 cp2 r2 :=
  ⟨rfl, rfl, rfl, rfl⟩

/-- Claim C6 — `calculateCoverage` returns an error exactly when parsing
fails (the parse step covers both an unopenable file and malformed
contents), the error message carries the offending path and the underlying
cause, and on success no error is returned. -/
theorem claim6_calculateCoverage_errors (cp : String)
    (parsed : Except String (List Profile)) :
    ((∃ m, calculateCoverage cp parsed = .error m) ↔ ∃ c, parsed = .error c) ∧
    (∀ c, parsed = .error c → calculateCoverage cp parsed =
      .error ("cannot parse coverage profile file " ++ cp ++ ": " ++ c)) ∧
    (∀ ps, parsed = .ok ps → calculateCoverage cp parsed = .ok (coverageOf ps)) := by
  refine ⟨?_, ?_, ?_⟩
  · constructor
    · rintro ⟨m, hm⟩
      cases parsed with
      | error c => exact ⟨c, rfl⟩
      | ok ps => simp [calculateCoverage] at hm
    · rintro ⟨c, hc⟩
      subst hc
      exact ⟨_, rfl⟩
  · rintro c rfl
    rfl
  · rintro ps rfl
    rfl

theorem claim6_calculateCoverage_errors_witness :
    calculateCoverage "cover.out" (.error "no such file") =
      .error ("cannot parse coverage profile file " ++ "cover.out" ++ ": " ++
        "no such file") :=
  (claim6_calculateCoverage_errors "cover.out" (.error "no such file")).2.1
    "no such file" rfl

/-- Claim C7 — `guessPackageName` returns the directory portion of the first
`:`-separated field of the profile's second line when the file opens with at
least two lines and the second line has at least two fields; every failure
(unopenable file, fewer than two lines, fewer than two fields) yields the
empty default label; the function is total, so it never errors or aborts. -/
theorem claim7_guessPackageName_spec :
    guessPackageName none = defaultPackageName ∧
    (∀ ls : List String, ls.length < 2 →
      guessPackageName (some ls) = defaultPackageName) ∧
    (∀ l1 l2 rest, (splitChar ':' l2).length < 2 →
      guessPackageName (some (l1 :: l2 :: rest)) = defaultPackageName) ∧
    (∀ l1 l2 rest, 2 ≤ (splitChar ':' l2).length →
      guessPackageName (some (l1 :: l2 :: rest)) =
        filepathDir (splitChar ':' l2).headI) := by
  refine ⟨rfl, ?_, ?_, ?_⟩
  · intro ls h
    rcases ls with _ | ⟨a, _ | ⟨b, rest⟩⟩
    · rfl
    · rfl
    · simp only [List.length_cons] at h
      omega
  · intro l1 l2 rest h
    show (if (splitChar ':' l2).length < 2 then defaultPackageName
      else filepathDir (splitChar ':' l2).headI) = defaultPackageName
    rw [if_pos h]
  · intro l1 l2 rest h
    show (if (splitChar ':' l2).length < 2 then defaultPackageName
      else filepathDir (splitChar ':' l2).headI) = filepathDir (splitChar ':' l2).headI
    rw [if_neg (by omega)]

theorem claim7_guessPackageName_spec_witness :
    guessPackageName (some ["mode: atomic"]) = defaultPackageName ∧
    guessPackageName (some ["mode: atomic", "noseparator"]) = defaultPackageName ∧
    guessPackageName
        (some ["mode: atomic", "github.com/cep21/gocovercheck/main.go:24.2,26.3 2 1"]) =
      filepathDir
        (splitChar ':' "github.com/cep21/gocovercheck/main.go:24.2,26.3 2 1").headI :=
  ⟨claim7_guessPackageName_spec.2.1 ["mode: atomic"] (by decide),
   claim7_guessPackageName_spec.2.2.1 "mode: atomic" "noseparator" [] (by decide),
   claim7_guessPackageName_spec.2.2.2 "mode: atomic"
     "github.com/cep21/gocovercheck/main.go:24.2,26.3 2 1" [] (by decide)⟩

/-- Claim C8 — when the threshold check fails, the failure carries the
measured coverage and the required threshold, each formatted with at least 2
decimal places, plus the best-effort package label: revision two embeds the
guessed label directly in the returned error (`%.3f` and `%f` = 6 places);
revision one formats both values with `%.4f` and its `main` prefixes the
reported line with the best-effort `bestGuessPackageName`. -/
theorem claim8_threshold_failure_message (pl : Option (List String)) (cp : String)
    (required : ℚ) (bg : String) (ps : List Profile)
    (h : coverageOf ps + 1 / 1000 < required) :
    runCmd2 none pl (.ok ps) cp required =
      some (thresholdMessage2 (guessPackageName pl) (coverageOf ps) required) ∧
    (runCmd1 none pl (.ok ps) cp required bg).2 =
      some (thresholdMessage1 (coverageOf ps) required) ∧
    reportLine1 (runCmd1 none pl (.ok ps) cp required bg).1
        (thresholdMessage1 (coverageOf ps) required) =
      (runCmd1 none pl (.ok ps) cp required bg).1 ++ "::warning:" ++
        thresholdMessage1 (coverageOf ps) required ∧
    decimalPlaces (formatFixed (coverageOf ps) 3) = 3 ∧
    decimalPlaces (formatFixed required 6) = 6 ∧
    decimalPlaces (formatFixed (coverageOf ps) 4) = 4 ∧
    decimalPlaces (formatFixed required 4) = 4 := by
  refine ⟨?_, ?_, rfl, formatFixed_decimalPlaces _ 3 (by omega),
    formatFixed_decimalPlaces _ 6 (by omega), formatFixed_decimalPlaces _ 4 (by omega),
    formatFixed_decimalPlaces _ 4 (by omega)⟩
  · show (if coverageOf ps + 1 / 1000 < required then
        some (thresholdMessage2 (guessPackageName pl) (coverageOf ps) required)
      else none) = _
    rw [if_pos h]
  · show (if coverageOf ps + 1 / 1000 < required then
        ((if guessPackageName pl ≠ defaultPackageName then guessPackageName pl else bg),
          some (thresholdMessage1 (coverageOf ps) required))
      else
        ((if guessPackageName pl ≠ defaultPackageName then guessPackageName pl else bg),
          none)).2 =
      some (thresholdMessage1 (coverageOf ps) required)
    rw [if_pos h]

theorem claim8_threshold_failure_message_witness :
    coverageOf [Profile.mk "d/a.go" [ProfileBlock.mk 10 1, ProfileBlock.mk 10 0]] +
        1 / 1000 < 60 ∧
    runCmd2 none (some ["mode: atomic", "d/a.go:1.1,2.2 10 1"])
        (.ok [Profile.mk "d/a.go" [ProfileBlock.mk 10 1, ProfileBlock.mk 10 0]])
        "cover.out" 60 =
      some (thresholdMessage2
        (guessPackageName (some ["mode: atomic", "d/a.go:1.1,2.2 10 1"]))
        (coverageOf [Profile.mk "d/a.go" [ProfileBlock.mk 10 1, ProfileBlock.mk 10 0]])
        60) := by
  have h : coverageOf [Profile.mk "d/a.go" [ProfileBlock.mk 10 1, ProfileBlock.mk 10 0]] +
      1 / 1000 < 60 := by
    rw [coverageOf_eq]
    norm_num [totalStatements, coveredStatements]
  exact ⟨h, (claim8_threshold_failure_message _ "cover.out" 60 "" _ h).1⟩

/-- Claim C9 — `forFile "-" dash` returns `dash` itself with no error,
`forFile "" dash` returns the discarding writer (whose write consumes
everything and reports no error), and any other filename creates/opens that
path. -/
theorem claim9_forFile_spec (W : Type) (dash : W) (filename : String) :
    forFile "-" dash = FileWriter.passthrough dash ∧
    forFile "" dash = (FileWriter.discardSink : FileWriter W) ∧
    (filename ≠ "-" → filename ≠ "" → forFile filename dash = .created filename) ∧
    (∀ p : List Nat, discardWrite p = (p.length, none)) := by
  refine ⟨rfl, rfl, ?_, fun p => rfl⟩
  intro h1 h2
  unfold forFile
  rw [if_neg h1, if_neg h2]

theorem claim9_forFile_spec_witness :
    forFile "-" (0 : Nat) = FileWriter.passthrough 0 ∧
    forFile "" (0 : Nat) = FileWriter.discardSink ∧
    forFile "/some/path" (0 : Nat) = FileWriter.created "/some/path" ∧
    discardWrite [7, 7] = (2, none) :=
  ⟨(claim9_forFile_spec Nat 0 "/some/path").1,
   (claim9_forFile_spec Nat 0 "/some/path").2.1,
   (claim9_forFile_spec Nat 0 "/some/path").2.2.1 (by decide) (by decide),
   (claim9_forFile_spec Nat 0 "/some/path").2.2.2 [7, 7]⟩

/-- Claim C10 — the computed coverage depends only on the multiset of
`(NumStmt, Count)` pairs with nonzero `NumStmt`: any two profile lists whose
flattened nonzero pairs are permutations of each other (this covers
reordering blocks, regrouping them among files, and adding or removing
blocks with `NumStmt = 0`) yield the same coverage. -/
theorem claim10_multiset_invariance (ps1 ps2 : List Profile)
    (h : ((flattenPairs ps1).filter fun q => decide (q.1 ≠ 0)).Perm
      ((flattenPairs ps2).filter fun q => decide (q.1 ≠ 0))) :
    coverageOf ps1 = coverageOf ps2 := by
  have ht : totalStatements ps1 = totalStatements ps2 := by
    rw [totalStatements_flattenPairs, totalStatements_flattenPairs,
      ← sum_fst_filter_ne_zero (flattenPairs ps1),
      ← sum_fst_filter_ne_zero (flattenPairs ps2)]
    exact (h.map Prod.fst).sum_eq
  have hc : coveredStatements ps1 = coveredStatements ps2 := by
    rw [coveredStatements_flattenPairs, coveredStatements_flattenPairs,
      ← sum_ite_filter_ne_zero (flattenPairs ps1),
      ← sum_ite_filter_ne_zero (flattenPairs ps2)]
    exact (h.map fun q => if 0 < q.2 then q.1 else 0).sum_eq
  rw [coverageOf_eq, coverageOf_eq, ht, hc]

theorem claim10_multiset_invariance_witness :
    ((flattenPairs [Profile.mk "a" [ProfileBlock.mk 1 1, ProfileBlock.mk 2 0]]).filter
        fun q => decide (q.1 ≠ 0)).Perm
      ((flattenPairs [Profile.mk "b" [ProfileBlock.mk 2 0],
        Profile.mk "c" [ProfileBlock.mk 0 5, ProfileBlock.mk 1 1]]).filter
        fun q => decide (q.1 ≠ 0)) ∧
    coverageOf [Profile.mk "a" [ProfileBlock.mk 1 1, ProfileBlock.mk 2 0]] =
      coverageOf [Profile.mk "b" [ProfileBlock.mk 2 0],
        Profile.mk "c" [ProfileBlock.mk 0 5, ProfileBlock.mk 1 1]] := by
  have h : ((flattenPairs [Profile.mk "a" [ProfileBlock.mk 1 1, ProfileBlock.mk 2 0]]).filter
      fun q => decide (q.1 ≠ 0)).Perm
      ((flattenPairs [Profile.mk "b" [ProfileBlock.mk 2 0],
        Profile.mk "c" [ProfileBlock.mk 0 5, ProfileBlock.mk 1 1]]).filter
        fun q => decide (q.1 ≠ 0)) := by decide
  exact ⟨h, claim10_multiset_invariance _ _ h⟩

end Gocovercheck
